import Mathlib

/-!
Shallow embedding of The-FileChange-Inator (src/src/main.rs), a polling
file watcher.  Strings are modelled as lists of characters; the
filesystem is modelled by explicit stat results and directory listings
passed to the functions; the unbounded polling loops are modelled by
recursion over a finite trace of observations (an exhausted trace means
the process is still polling).  Rust panics (failed unwrap calls and the
overflow-checked usize subtraction in resolve_file_name) are modelled
explicitly as error outcomes.
-/

deriving instance DecidableEq for Except

namespace FileChangeInator

/-- Strings of the Rust program, modelled as lists of characters. -/
abbrev Str := List Char

/-- Exit code for a failed lock acquisition (const RET_CANNOT_LOCK). -/
def RET_CANNOT_LOCK : Int := 1

/-- Exit code when the target is a directory (const RET_IS_DIR). -/
def RET_IS_DIR : Int := 2

/-- Exit code when the target goes missing (const RET_FILE_MISSING). -/
def RET_FILE_MISSING : Int := 3

/-- Characters matched by the regex class a-zA-Z0-9 used in sanitize. -/
def isAlnumAscii (c : Char) : Bool :=
  decide (('a' ≤ c ∧ c ≤ 'z') ∨ ('A' ≤ c ∧ c ≤ 'Z') ∨ ('0' ≤ c ∧ c ≤ '9'))

/-- fn sanitize: replace every character outside a-zA-Z0-9 with an
underscore (regex replace_all of the class complement). -/
def sanitize (input : Str) : Str :=
  input.map (fun c => if isAlnumAscii c then c else '_')

/-- The lock path built by create_lock_file: HOME ++ "/filewatcher/" ++
sanitize(filename).  Directory creation and file opening are side
effects with no bearing on the path. -/
def create_lock_path (home target : Str) : Str :=
  home ++ ("/filewatcher/".toList) ++ sanitize target

/-- Result of fs metadata for an existing path: a non-directory carries
the modification time as duration since the Unix epoch in whole seconds
(none when the clock reads before the epoch), or the path is a
directory. -/
inductive Metadata where
  | file (modifiedSinceEpoch : Option Nat)
  | dir
deriving DecidableEq, Repr

/-- Result of one fs::metadata call: success with metadata, or an error
(the path went missing). -/
inductive StatRes where
  | ok (m : Metadata)
  | err
deriving DecidableEq, Repr

/-- fn get_seconds: seconds since the epoch, or 1 when duration_since
fails (time before the epoch). -/
def get_seconds : Option Nat → Nat
  | some s => s
  | none => 1

/-- fn get_last_mod: modification time in seconds for a non-directory,
Err(RET_IS_DIR) for a directory, Err(RET_FILE_MISSING) when the
metadata call fails. -/
def get_last_mod : StatRes → Except Int Nat
  | .ok (.file t) => .ok (get_seconds t)
  | .ok .dir => .error RET_IS_DIR
  | .err => .error RET_FILE_MISSING

/-- A stat result for an existing non-directory file last modified at
second t: the common case in the polling loop. -/
def statFile (t : Nat) : StatRes := .ok (.file (some t))

/-- Outcome of the modification-wait engine on a finite observation
trace. -/
inductive UpdRes where
  | success
  | failure (code : Int)
  | panicked
  | polling
deriving DecidableEq, Repr

/-- The loop body of wait_for_file_update: each iteration re-stats the
target; an Ok reading strictly above the baseline succeeds, an Err is
returned as the exit code, otherwise the loop sleeps and repeats.  An
exhausted trace means the loop is still polling. -/
def pollLoop (last_mod : Nat) : List StatRes → UpdRes
  | [] => .polling
  | s :: rest =>
    match get_last_mod s with
    | .ok latest_mod => if last_mod < latest_mod then .success else pollLoop last_mod rest
    | .error ret => .failure ret

/-- Rust panics reachable in resolve_file_name: unwrap on rfind (no
slash), unwrap on find (no star), the overflow-checked usize
subtraction part_a.len() - 1 on an empty part_a, and unwrap on
read_dir. -/
inductive PanicKind where
  | noSlash
  | noStar
  | emptyPartA
  | dirUnreadable
deriving DecidableEq, Repr

/-- Byte index of the last occurrence of c in s (Rust rfind; indices
coincide with character positions for the ASCII patterns in scope). -/
def rfindIdx (c : Char) (s : Str) : Option Nat :=
  (s.reverse.findIdx? (fun x => x == c)).map (fun i => s.length - 1 - i)

/-- The acceptance test applied to one directory entry inside the loop
of resolve_file_name: the name is at least file_len characters long, it
starts with the first part_a_end characters of part_a, and it ends
with part_b minus its leading star. -/
def entryMatches (file_len part_a_end : Nat) (part_a part_b : Str) (name : Str) : Bool :=
  decide (file_len ≤ name.length)
    && (part_a.take part_a_end).isPrefixOf name
    && (part_b.drop 1).isSuffixOf name

/-- The directory-entry loop inside resolve_file_name: the first entry
passing entryMatches is returned appended to path. -/
def searchEntries (path : Str) (file_len part_a_end : Nat) (part_a part_b : Str) :
    List Str → Option Str
  | [] => none
  | name :: rest =>
    if entryMatches file_len part_a_end part_a part_b name
    then some (path ++ name)
    else searchEntries path file_len part_a_end part_a part_b rest

/-- fn resolve_file_name: split the pattern at the last slash into path
and file, split file at the first star into part_a and part_b, then
scan the directory listing.  The unwraps on rfind, find and read_dir
panic when they fail, and part_a.len() - 1 panics (overflow-checked
usize subtraction) when part_a is empty. -/
def resolve_file_name (readDir : Str → Option (List Str)) (filename : Str) :
    Except PanicKind (Option Str) :=
  match rfindIdx '/' filename with
  | none => .error .noSlash
  | some a =>
    let path := filename.take (a + 1)
    let file := filename.drop (a + 1)
    match file.findIdx? (fun x => x == '*') with
    | none => .error .noStar
    | some i =>
      let part_a := file.take i
      let part_b := file.drop i
      if part_a.isEmpty then .error .emptyPartA
      else
        let file_len := file.length - 1
        let part_a_end := part_a.length - 1
        match readDir path with
        | none => .error .dirUnreadable
        | some entries => .ok (searchEntries path file_len part_a_end part_a part_b entries)

/-- One iteration's view of the filesystem for the appearance-wait
loop: the directory listings read_dir would return and the existence
checks fs::exists would answer. -/
structure FsView where
  readDir : Str → Option (List Str)
  fileExists : Str → Bool

/-- fn wait_for_file: each iteration re-resolves a wildcard pattern
(keeping the previous resolved name when resolution returns none),
then checks existence of the current candidate; it returns true when
the candidate exists.  An exhausted trace (ok false) means the loop is
still polling; a resolver panic aborts the process. -/
def wait_for_file (filepath : Str) (temp_filepath : Str) :
    List FsView → Except PanicKind Bool
  | [] => .ok false
  | env :: rest =>
    match (if filepath.contains '*' then
        match resolve_file_name env.readDir filepath with
        | .error p => Except.error p
        | .ok (some f) => Except.ok f
        | .ok none => Except.ok temp_filepath
      else Except.ok temp_filepath : Except PanicKind Str) with
    | .error p => .error p
    | .ok temp2 =>
      if env.fileExists temp2 then .ok true
      else wait_for_file filepath temp2 rest

/-- fn wait_for_file_update: when the target exists, capture the
baseline via get_last_mod(..).unwrap() — an Err there panics — then run
the polling loop; when it does not exist, fall back to wait_for_file
and return Ok once it reports the file available. -/
def wait_for_file_update (filename : Str) (exists0 : Bool) (stat0 : StatRes)
    (polls : List StatRes) (appEnvs : List FsView) : UpdRes :=
  if exists0 then
    match get_last_mod stat0 with
    | .error _ => .panicked
    | .ok last_mod => pollLoop last_mod polls
  else
    match wait_for_file filename filename appEnvs with
    | .error _ => .panicked
    | .ok true => .success
    | .ok false => .polling

/-- How the process ends: Ok(()), Err(code), or a panic. -/
inductive ExitStatus where
  | ok
  | err (code : Int)
  | panic
deriving DecidableEq, Repr

/-- The observable end state of a run: the exit status and whether
remove_lock_file ran on the lock file. -/
structure MainResult where
  exit : ExitStatus
  lockRemoved : Bool
deriving DecidableEq, Repr

/-- fn main: on lock failure exit Err(RET_CANNOT_LOCK) without removing
the lock; in update mode map the wait outcome (removing the lock only
on success); in appearance mode wait, then remove the lock and exit
Ok.  none means the run is still polling at the end of the trace. -/
def main_run (lockOk update : Bool) (filename : Str)
    (exists0 : Bool) (stat0 : StatRes) (polls : List StatRes) (appEnvs : List FsView) :
    Option MainResult :=
  if lockOk then
    if update then
      match wait_for_file_update filename exists0 stat0 polls appEnvs with
      | .success => some ⟨.ok, true⟩
      | .failure c => some ⟨.err c, false⟩
      | .panicked => some ⟨.panic, false⟩
      | .polling => none
    else
      match wait_for_file filename filename appEnvs with
      | .error _ => some ⟨.panic, false⟩
      | .ok true => some ⟨.ok, true⟩
      | .ok false => none
  else some ⟨.err RET_CANNOT_LOCK, false⟩

/-- A concrete directory listing used to instantiate general theorems:
the directory /d/ holds the single entry axc, everything else is
unreadable. -/
def exDir : Str → Option (List Str) :=
  fun p => if p = "/d/".toList then some ["axc".toList] else none

theorem searchEntries_eq_findFirst (path : Str) (fl pe : Nat) (pa pb : Str)
    (entries : List Str) :
    searchEntries path fl pe pa pb entries =
      (entries.find? (entryMatches fl pe pa pb)).map (fun name => path ++ name) := by
  induction entries with
  | nil => rfl
  | cons name rest ih =>
    cases h : entryMatches fl pe pa pb name with
    | false => simp [searchEntries, List.find?_cons, h, ih]
    | true => simp [searchEntries, List.find?_cons, h]

/-- C1: in modification-wait mode on an existing non-directory target
the engine polls against the baseline timestamp captured at the start;
a poll reading equal to the baseline keeps polling, a reading strictly
greater than the baseline returns success, and success is reached only
when some poll reads strictly above the baseline. -/
theorem C1_update_wait_strictly_greater :
    (∀ (filename : Str) (t : Nat) (polls : List StatRes) (envs : List FsView),
      wait_for_file_update filename true (statFile t) polls envs = pollLoop t polls)
    ∧ (∀ (t : Nat) (rest : List StatRes),
      pollLoop t (statFile t :: rest) = pollLoop t rest)
    ∧ (∀ (t u : Nat) (rest : List StatRes), t < u →
      pollLoop t (statFile u :: rest) = UpdRes.success)
    ∧ (∀ (t : Nat) (polls : List StatRes), pollLoop t polls = UpdRes.success →
      ∃ s ∈ polls, ∃ u, get_last_mod s = Except.ok u ∧ t < u) := by
  refine ⟨?_, ?_, ?_, ?_⟩
  · intro filename t polls envs
    simp [wait_for_file_update, get_last_mod, statFile, get_seconds]
  · intro t rest
    simp [pollLoop, get_last_mod, statFile, get_seconds]
  · intro t u rest h
    simp [pollLoop, get_last_mod, statFile, get_seconds, h]
  · intro t polls h
    induction polls with
    | nil => simp [pollLoop] at h
    | cons s rest ih =>
      cases hs : get_last_mod s with
      | ok latest =>
        simp only [pollLoop, hs] at h
        by_cases hlt : t < latest
        · exact ⟨s, List.mem_cons_self s rest, latest, hs, hlt⟩
        · rw [if_neg hlt] at h
          obtain ⟨s2, hmem, u, hgu, htu⟩ := ih h
          exact ⟨s2, List.mem_cons_of_mem _ hmem, u, hgu, htu⟩
      | error ret =>
        simp only [pollLoop, hs] at h
        exact absurd h (by simp)

theorem C1_update_wait_strictly_greater_witness :
    wait_for_file_update [] true (statFile 5) [statFile 7] [] = pollLoop 5 [statFile 7]
    ∧ pollLoop 5 (statFile 5 :: [statFile 7]) = pollLoop 5 [statFile 7]
    ∧ pollLoop 5 (statFile 7 :: []) = UpdRes.success
    ∧ ∃ s ∈ [statFile 7], ∃ u, get_last_mod s = Except.ok u ∧ 5 < u :=
  ⟨C1_update_wait_strictly_greater.1 [] 5 [statFile 7] [],
   C1_update_wait_strictly_greater.2.1 5 [statFile 7],
   C1_update_wait_strictly_greater.2.2.1 5 7 [] (by decide),
   C1_update_wait_strictly_greater.2.2.2 5 [statFile 7] (by decide)⟩

/-- C3: sanitize keeps the length of its input, leaves characters in
a-zA-Z0-9 unchanged and replaces every other character with an
underscore (pointwise), so its output only holds characters in
A-Za-z0-9 or underscore, and the derived lock path is a function of the
sanitized target. -/
theorem C3_sanitize_charset_and_length :
    (∀ s : Str, (sanitize s).length = s.length)
    ∧ (∀ s : Str, ∀ c ∈ sanitize s, isAlnumAscii c = true ∨ c = '_')
    ∧ (∀ (s : Str) (i : Nat),
      (sanitize s)[i]? = (s[i]?).map (fun c => if isAlnumAscii c then c else '_'))
    ∧ (∀ home t1 t2 : Str, sanitize t1 = sanitize t2 →
      create_lock_path home t1 = create_lock_path home t2) := by
  refine ⟨?_, ?_, ?_, ?_⟩
  · intro s
    simp [sanitize]
  · intro s c hc
    rw [sanitize, List.mem_map] at hc
    obtain ⟨a, _, ha⟩ := hc
    by_cases h : isAlnumAscii a = true
    · left
      rw [← ha]
      simp [h]
    · right
      rw [← ha]
      simp [h]
  · intro s i
    simp [sanitize, List.getElem?_map]
  · intro home t1 t2 h
    simp [create_lock_path, h]

theorem C3_sanitize_charset_and_length_witness :
    (sanitize ("/a".toList)).length = ("/a".toList).length
    ∧ (isAlnumAscii '_' = true ∨ '_' = '_')
    ∧ (sanitize ("/a".toList))[0]? =
      (("/a".toList)[0]?).map (fun c => if isAlnumAscii c then c else '_')
    ∧ create_lock_path ("/h".toList) ("/a".toList) = create_lock_path ("/h".toList) (".a".toList) :=
  ⟨C3_sanitize_charset_and_length.1 ("/a".toList),
   C3_sanitize_charset_and_length.2.1 ("/a".toList) '_' (by decide),
   C3_sanitize_charset_and_length.2.2.1 ("/a".toList) 0,
   C3_sanitize_charset_and_length.2.2.2 ("/h".toList) ("/a".toList) (".a".toList) (by decide)⟩

/-- C10: when the wildcard marker is the first character of the final
path segment the pattern splits with an empty part_a, and the resolver
hits the overflow-checked usize subtraction part_a.len() - 1 and
panics instead of returning some entry or none. -/
theorem C10_empty_prefix_panics (readDir : Str → Option (List Str)) (filename : Str) (a : Nat)
    (ha : rfindIdx '/' filename = some a)
    (hi : (filename.drop (a + 1)).findIdx? (fun x => x == '*') = some 0) :
    resolve_file_name readDir filename = Except.error PanicKind.emptyPartA := by
  simp [resolve_file_name, ha, hi]

theorem C10_empty_prefix_panics_witness :
    resolve_file_name exDir ("/dir/*.txt".toList) = Except.error PanicKind.emptyPartA :=
  C10_empty_prefix_panics exDir ("/dir/*.txt".toList) 4 rfl rfl

theorem resolve_first_match (readDir : Str → Option (List Str)) (filename : Str)
    (a i : Nat) (entries : List Str)
    (ha : rfindIdx '/' filename = some a)
    (hi : (filename.drop (a + 1)).findIdx? (fun x => x == '*') = some i)
    (hpos : 0 < i)
    (hd : readDir (filename.take (a + 1)) = some entries) :
    resolve_file_name readDir filename =
      Except.ok ((entries.find? (entryMatches ((filename.drop (a + 1)).length - 1)
          (((filename.drop (a + 1)).take i).length - 1)
          ((filename.drop (a + 1)).take i)
          ((filename.drop (a + 1)).drop i))).map
        (fun name => filename.take (a + 1) ++ name)) := by
  have hfile : filename.drop (a + 1) ≠ [] := by
    intro h
    rw [h] at hi
    simp [List.findIdx?_nil] at hi
  have hne : ((filename.drop (a + 1)).take i).isEmpty = false := by
    simp [List.isEmpty_eq_false, List.take_eq_nil_iff, hfile, Nat.pos_iff_ne_zero.mp hpos]
  simp [resolve_file_name, ha, hi, hne, hd, searchEntries_eq_findFirst]

/-- C2 counterexample: on the pattern with directory part /d/, full
wildcard prefix ab and suffix c, the entry axc does not start with the
full prefix ab, yet the resolver returns /d/axc: the code only tests
the prefix with its last character removed. -/
theorem C2_counterexample :
    resolve_file_name exDir ("/d/ab*c".toList) = Except.ok (some ("/d/axc".toList))
    ∧ ("ab".toList).isPrefixOf ("axc".toList) = false :=
  ⟨rfl, rfl⟩

/-- C2 (amended): the resolver returns the directory part concatenated
with the first entry whose name has length at least the
filename-pattern length minus one, starts with the wildcard prefix
MINUS ITS LAST CHARACTER (part_a truncated by one), and ends with the
full suffix after the marker. -/
theorem C2_resolver_first_match_amended (readDir : Str → Option (List Str)) (filename : Str)
    (a i : Nat) (entries : List Str)
    (ha : rfindIdx '/' filename = some a)
    (hi : (filename.drop (a + 1)).findIdx? (fun x => x == '*') = some i)
    (hpos : 0 < i)
    (hd : readDir (filename.take (a + 1)) = some entries) :
    resolve_file_name readDir filename =
      Except.ok ((entries.find? (entryMatches ((filename.drop (a + 1)).length - 1)
          (((filename.drop (a + 1)).take i).length - 1)
          ((filename.drop (a + 1)).take i)
          ((filename.drop (a + 1)).drop i))).map
        (fun name => filename.take (a + 1) ++ name)) :=
  resolve_first_match readDir filename a i entries ha hi hpos hd

/-- A second concrete directory listing, realizing the wildcard
scenario of the spec: /d/ holds the single entry log-2024.txt. -/
def exDir2 : Str → Option (List Str) :=
  fun p => if p = "/d/".toList then some ["log-2024.txt".toList] else none

theorem C2_resolver_first_match_amended_witness :
    resolve_file_name exDir2 ("/d/log-*.txt".toList) =
      Except.ok (some ("/d/log-2024.txt".toList)) := by
  rw [C2_resolver_first_match_amended exDir2 ("/d/log-*.txt".toList) 2 4
    ["log-2024.txt".toList] rfl rfl (by decide) rfl]
  rfl

/-- C7 counterexample: on a pattern with no slash the resolver panics
(unwrap on rfind) instead of returning none. -/
theorem C7_counterexample :
    resolve_file_name exDir ("ab*c".toList) = Except.error PanicKind.noSlash
    ∧ resolve_file_name exDir ("ab*c".toList) ≠ Except.ok none := by
  refine ⟨rfl, ?_⟩
  decide

/-- C7 (amended): the resolver returns none exactly in the no-matching-
entry case; a pattern without a slash, a pattern without a wildcard
marker, and an unreadable directory each make it panic (process abort),
not return none. -/
theorem C7_resolver_none_vs_panics :
    (∀ (readDir : Str → Option (List Str)) (filename : Str),
      rfindIdx '/' filename = none →
      resolve_file_name readDir filename = Except.error PanicKind.noSlash)
    ∧ (∀ (readDir : Str → Option (List Str)) (filename : Str) (a : Nat),
      rfindIdx '/' filename = some a →
      (filename.drop (a + 1)).findIdx? (fun x => x == '*') = none →
      resolve_file_name readDir filename = Except.error PanicKind.noStar)
    ∧ (∀ (readDir : Str → Option (List Str)) (filename : Str) (a i : Nat),
      rfindIdx '/' filename = some a →
      (filename.drop (a + 1)).findIdx? (fun x => x == '*') = some i →
      0 < i →
      readDir (filename.take (a + 1)) = none →
      resolve_file_name readDir filename = Except.error PanicKind.dirUnreadable)
    ∧ (∀ (readDir : Str → Option (List Str)) (filename : Str) (a i : Nat)
        (entries : List Str),
      rfindIdx '/' filename = some a →
      (filename.drop (a + 1)).findIdx? (fun x => x == '*') = some i →
      0 < i →
      readDir (filename.take (a + 1)) = some entries →
      (∀ name ∈ entries, entryMatches ((filename.drop (a + 1)).length - 1)
          (((filename.drop (a + 1)).take i).length - 1)
          ((filename.drop (a + 1)).take i) ((filename.drop (a + 1)).drop i) name = false) →
      resolve_file_name readDir filename = Except.ok none) := by
  refine ⟨?_, ?_, ?_, ?_⟩
  · intro readDir filename h
    simp [resolve_file_name, h]
  · intro readDir filename a ha hstar
    simp [resolve_file_name, ha, hstar]
  · intro readDir filename a i ha hi hpos hd
    have hfile : filename.drop (a + 1) ≠ [] := by
      intro h
      rw [h] at hi
      simp [List.findIdx?_nil] at hi
    have hne : ((filename.drop (a + 1)).take i).isEmpty = false := by
      simp [List.isEmpty_eq_false, List.take_eq_nil_iff, hfile, Nat.pos_iff_ne_zero.mp hpos]
    simp [resolve_file_name, ha, hi, hne, hd]
  · intro readDir filename a i entries ha hi hpos hd hall
    rw [resolve_first_match readDir filename a i entries ha hi hpos hd]
    rw [List.find?_eq_none.mpr (by intro x hx; rw [hall x hx]; simp)]
    rfl

theorem C7_resolver_none_vs_panics_witness :
    resolve_file_name exDir ("ab*c".toList) = Except.error PanicKind.noSlash
    ∧ resolve_file_name exDir ("/d/abc".toList) = Except.error PanicKind.noStar
    ∧ resolve_file_name exDir ("/x/a*b".toList) = Except.error PanicKind.dirUnreadable
    ∧ resolve_file_name exDir ("/d/zz*q".toList) = Except.ok none :=
  ⟨C7_resolver_none_vs_panics.1 exDir ("ab*c".toList) rfl,
   C7_resolver_none_vs_panics.2.1 exDir ("/d/abc".toList) 2 rfl rfl,
   C7_resolver_none_vs_panics.2.2.1 exDir ("/x/a*b".toList) 2 1 rfl rfl (by decide) rfl,
   C7_resolver_none_vs_panics.2.2.2 exDir ("/d/zz*q".toList) 2 2 ["axc".toList]
     rfl rfl (by decide) rfl (by decide)⟩

theorem pollLoop_first_error (t : Nat) (pre rest : List StatRes) (e : StatRes) (c : Int)
    (hpre : ∀ s ∈ pre, ∃ u, get_last_mod s = Except.ok u ∧ u ≤ t)
    (he : get_last_mod e = Except.error c) :
    pollLoop t (pre ++ e :: rest) = UpdRes.failure c := by
  revert hpre
  induction pre with
  | nil =>
    intro _
    simp [pollLoop, he]
  | cons s pre ih =>
    intro hpre
    obtain ⟨u, hu, hut⟩ := hpre s (List.mem_cons_self s pre)
    simp only [List.cons_append, pollLoop, hu]
    rw [if_neg (by omega)]
    exact ih (fun x hx => hpre x (List.mem_cons_of_mem _ hx))

theorem pollLoop_first_greater (t u : Nat) (pre rest : List StatRes) (e : StatRes)
    (hpre : ∀ s ∈ pre, ∃ v, get_last_mod s = Except.ok v ∧ v ≤ t)
    (he : get_last_mod e = Except.ok u) (htu : t < u) :
    pollLoop t (pre ++ e :: rest) = UpdRes.success := by
  revert hpre
  induction pre with
  | nil =>
    intro _
    simp [pollLoop, he, htu]
  | cons s pre ih =>
    intro hpre
    obtain ⟨v, hv, hvt⟩ := hpre s (List.mem_cons_self s pre)
    simp only [List.cons_append, pollLoop, hv]
    rw [if_neg (by omega)]
    exact ih (fun x hx => hpre x (List.mem_cons_of_mem _ hx))

theorem main_run_update_failure (filename : Str) (t : Nat) (polls : List StatRes)
    (envs : List FsView) (c : Int)
    (h : pollLoop t polls = UpdRes.failure c) :
    main_run true true filename true (statFile t) polls envs =
      some ⟨ExitStatus.err c, false⟩ := by
  simp [main_run, wait_for_file_update, statFile, get_last_mod, get_seconds, h]

/-- C4: the lock file is removed exactly on successful completion: any
run that ends has the lock removed iff its exit status is Ok; in
particular the modification-mode IsDirectory and FileMissing failure
paths and the CannotLock path leave the lock file in place. -/
theorem C4_lock_removed_iff_success (lockOk update : Bool) (filename : Str)
    (exists0 : Bool) (stat0 : StatRes) (polls : List StatRes) (appEnvs : List FsView)
    (r : MainResult)
    (h : main_run lockOk update filename exists0 stat0 polls appEnvs = some r) :
    (r.lockRemoved = true ↔ r.exit = ExitStatus.ok) := by
  unfold main_run at h
  split at h
  · split at h
    · split at h <;>
        first
          | (injection h with h2; subst h2; simp)
          | simp at h
    · split at h <;>
        first
          | (injection h with h2; subst h2; simp)
          | simp at h
  · injection h with h2
    subst h2
    simp

theorem C4_lock_removed_iff_success_witness :
    (⟨ExitStatus.ok, true⟩ : MainResult).lockRemoved = true ↔
      (⟨ExitStatus.ok, true⟩ : MainResult).exit = ExitStatus.ok :=
  C4_lock_removed_iff_success true true [] true (statFile 0) [statFile 1] [] ⟨.ok, true⟩ rfl

/-- C5 counterexample: with a directory target at the initial check in
modification-wait mode the run panics on the unwrap of the baseline
Err(RET_IS_DIR), so it does not exit with code 2 there; the failure
outcome with code 2 is not what the run produces. -/
theorem C5_counterexample :
    wait_for_file_update [] true (StatRes.ok Metadata.dir) [] [] = UpdRes.panicked
    ∧ wait_for_file_update [] true (StatRes.ok Metadata.dir) [] [] ≠ UpdRes.failure RET_IS_DIR
    ∧ main_run true true [] true (StatRes.ok Metadata.dir) [] [] =
        some ⟨ExitStatus.panic, false⟩ :=
  ⟨rfl, by decide, rfl⟩

/-- C5 (amended): a directory target at the initial check makes the
program panic (unwrap of Err(RET_IS_DIR)) before any polling, for
every poll trace; exit code 2 is produced instead when a polling
iteration observes the target as a directory, and a failure with code
2 can only come from such an observation. -/
theorem C5_initial_directory_panics :
    (∀ (filename : Str) (polls : List StatRes) (envs : List FsView),
      wait_for_file_update filename true (StatRes.ok Metadata.dir) polls envs = UpdRes.panicked)
    ∧ (∀ (filename : Str) (polls : List StatRes) (envs : List FsView),
      main_run true true filename true (StatRes.ok Metadata.dir) polls envs =
        some ⟨ExitStatus.panic, false⟩)
    ∧ (∀ (t : Nat) (polls : List StatRes), pollLoop t polls = UpdRes.failure RET_IS_DIR →
      StatRes.ok Metadata.dir ∈ polls) := by
  refine ⟨?_, ?_, ?_⟩
  · intro filename polls envs
    simp [wait_for_file_update, get_last_mod]
  · intro filename polls envs
    simp [main_run, wait_for_file_update, get_last_mod]
  · intro t polls h
    induction polls with
    | nil => simp [pollLoop] at h
    | cons s rest ih =>
      cases s with
      | ok m =>
        cases m with
        | file tm =>
          simp only [pollLoop, get_last_mod] at h
          split at h
          · exact absurd h (by simp)
          · exact List.mem_cons_of_mem _ (ih h)
        | dir => exact List.mem_cons_self _ _
      | err =>
        simp only [pollLoop, get_last_mod] at h
        simp [RET_FILE_MISSING, RET_IS_DIR] at h

theorem C5_initial_directory_panics_witness :
    wait_for_file_update [] true (StatRes.ok Metadata.dir) [] [] = UpdRes.panicked
    ∧ main_run true true [] true (StatRes.ok Metadata.dir) [] [] =
        some ⟨ExitStatus.panic, false⟩
    ∧ StatRes.ok Metadata.dir ∈ [StatRes.ok Metadata.dir] :=
  ⟨C5_initial_directory_panics.1 [] [] [],
   C5_initial_directory_panics.2.1 [] [] [],
   C5_initial_directory_panics.2.2 0 [StatRes.ok Metadata.dir] (by decide)⟩

/-- C6: a failed re-stat during the modification-wait loop ends the
run with FileMissing and exit code 3 with no retry, while a reading
strictly above the baseline occurring first ends it with success. -/
theorem C6_file_missing_fatal :
    (∀ (t : Nat) (pre rest : List StatRes),
      (∀ s ∈ pre, ∃ u, get_last_mod s = Except.ok u ∧ u ≤ t) →
      pollLoop t (pre ++ StatRes.err :: rest) = UpdRes.failure RET_FILE_MISSING)
    ∧ (∀ (filename : Str) (t : Nat) (polls : List StatRes) (envs : List FsView),
      pollLoop t polls = UpdRes.failure RET_FILE_MISSING →
      main_run true true filename true (statFile t) polls envs =
        some ⟨ExitStatus.err RET_FILE_MISSING, false⟩)
    ∧ (∀ (t u : Nat) (pre rest : List StatRes),
      (∀ s ∈ pre, ∃ v, get_last_mod s = Except.ok v ∧ v ≤ t) → t < u →
      pollLoop t (pre ++ statFile u :: rest) = UpdRes.success) := by
  refine ⟨?_, ?_, ?_⟩
  · intro t pre rest hpre
    exact pollLoop_first_error t pre rest StatRes.err RET_FILE_MISSING hpre rfl
  · intro filename t polls envs h
    exact main_run_update_failure filename t polls envs RET_FILE_MISSING h
  · intro t u pre rest hpre htu
    exact pollLoop_first_greater t u pre rest (statFile u) hpre rfl htu

theorem C6_file_missing_fatal_witness :
    pollLoop 5 ([statFile 4] ++ StatRes.err :: []) = UpdRes.failure RET_FILE_MISSING
    ∧ main_run true true [] true (statFile 5) [StatRes.err] [] =
        some ⟨ExitStatus.err RET_FILE_MISSING, false⟩
    ∧ pollLoop 5 ([statFile 4] ++ statFile 7 :: []) = UpdRes.success :=
  ⟨C6_file_missing_fatal.1 5 [statFile 4] []
      (by intro s hs; simp at hs; subst hs; exact ⟨4, rfl, by decide⟩),
   C6_file_missing_fatal.2.1 [] 5 [StatRes.err] [] (by decide),
   C6_file_missing_fatal.2.2 5 7 [statFile 4] []
      (by intro s hs; simp at hs; subst hs; exact ⟨4, rfl, by decide⟩) (by decide)⟩

/-- C8 counterexample: with a non-directory baseline at the initial
check and a later poll observing a directory, the polling loop itself
fails with IsDirectory — the condition is re-checked inside the loop. -/
theorem C8_counterexample :
    wait_for_file_update [] true (statFile 5) [StatRes.ok Metadata.dir] [] =
      UpdRes.failure RET_IS_DIR := rfl

/-- C8 (amended): the is-directory condition is re-checked on every
iteration of the loop through get_last_mod: after any number of clean
polls, an iteration observing a directory makes the loop fail with
IsDirectory (exit code 2) from inside the loop. -/
theorem C8_loop_rechecks_directory :
    (∀ (t : Nat) (pre rest : List StatRes),
      (∀ s ∈ pre, ∃ u, get_last_mod s = Except.ok u ∧ u ≤ t) →
      pollLoop t (pre ++ StatRes.ok Metadata.dir :: rest) = UpdRes.failure RET_IS_DIR)
    ∧ (∀ (filename : Str) (t : Nat) (polls : List StatRes) (envs : List FsView),
      pollLoop t polls = UpdRes.failure RET_IS_DIR →
      main_run true true filename true (statFile t) polls envs =
        some ⟨ExitStatus.err RET_IS_DIR, false⟩) := by
  refine ⟨?_, ?_⟩
  · intro t pre rest hpre
    exact pollLoop_first_error t pre rest (StatRes.ok Metadata.dir) RET_IS_DIR hpre rfl
  · intro filename t polls envs h
    exact main_run_update_failure filename t polls envs RET_IS_DIR h

theorem C8_loop_rechecks_directory_witness :
    pollLoop 5 ([statFile 5] ++ StatRes.ok Metadata.dir :: []) = UpdRes.failure RET_IS_DIR
    ∧ main_run true true [] true (statFile 5) [StatRes.ok Metadata.dir] [] =
        some ⟨ExitStatus.err RET_IS_DIR, false⟩ :=
  ⟨C8_loop_rechecks_directory.1 5 [statFile 5] []
      (by intro s hs; simp at hs; subst hs; exact ⟨5, rfl, by decide⟩),
   C8_loop_rechecks_directory.2 [] 5 [StatRes.ok Metadata.dir] [] (by decide)⟩

end FileChangeInator
